import Mathlib

/-!
Verification of the STAN chatbot server (`server/index.js`).

Text is modelled as `List Char` (`Str`); JavaScript's `String.prototype.includes`
substring test is modelled by `hasSub`, regular-expression alternation of plain
keywords by keyword lists, and the SQLite `memory` table by a list of rows.
-/

abbrev Str := List Char

/-- The apostrophe character, used inside several of the server's literals. -/
def aq : Str := [Char.ofNat 39]

/-- JavaScript `message.toLowerCase()` (ASCII case folding). -/
def toLowerStr (s : Str) : Str := s.map Char.toLower

/-- `startsWithB s p` : `p` is a prefix of `s`. -/
def startsWithB : Str → Str → Bool
  | _, [] => true
  | [], _ :: _ => false
  | a :: s, b :: p => (a == b) && startsWithB s p

/-- `hasSub s p` : `p` occurs as a contiguous substring of `s`
(JavaScript `s.includes(p)` / regex literal-substring test). -/
def hasSub : Str → Str → Bool
  | [], p => startsWithB [] p
  | a :: s, p => startsWithB (a :: s) p || hasSub s p

/-! ## Tone classifier (`detectTone`, index.js lines 121–126) -/

def empatheticKeywords : List Str :=
  [("sad").data, ("depressed").data, ("unhappy").data,
   ("down").data, ("not good").data, ("worried").data]

def playfulKeywords : List Str :=
  [("joke").data, ("roast").data, ("funny").data, ("lol").data, ("haha").data]

/-- `detectTone(message)`: lower-case the message, test the empathetic keyword
alternation, then the playful one, else neutral. -/
def detectTone (message : Str) : Str :=
  let m := toLowerStr message
  if empatheticKeywords.any (fun k => hasSub m k) then ("empathetic").data
  else if playfulKeywords.any (fun k => hasSub m k) then ("playful").data
  else ("neutral").data

/-! ## Fact store (`memory` table; `saveFact` / `getFacts`, index.js 94–110) -/

/-- One row of the SQLite `memory` table. -/
structure FactRow where
  user_id : Str
  fact_key : Str
  fact_value : Str
deriving DecidableEq

/-- The `memory` table contents, in row order. -/
abbrev Memory := List FactRow

/-- Row predicate for the SQL `WHERE user_id = ?` filter. -/
def userMatch (u : Str) (r : FactRow) : Bool := decide (r.user_id = u)

/-- Row predicate for a `(user_id, fact_key)` natural-key match. -/
def keyMatch (u k : Str) (r : FactRow) : Bool :=
  decide (r.user_id = u) && decide (r.fact_key = k)

/-- Number of rows with the given `(user_id, fact_key)` pair. -/
def countKey (mem : Memory) (u k : Str) : Nat :=
  (mem.filter (keyMatch u k)).length

/-- Whether some row carries the given `(user_id, fact_key)` pair
(the `UNIQUE(user_id, fact_key)` conflict test). -/
def hasKey (mem : Memory) (u k : Str) : Bool := mem.any (keyMatch u k)

/-- The migrated schema's invariant: at most one `fact_value` per
`(user_id, fact_key)` pair. -/
def atMostOne (mem : Memory) : Prop := ∀ u k, countKey mem u k ≤ 1

/-- Effect of `UPDATE SET fact_value = excluded.fact_value` on one row. -/
def updRow (u k v : Str) (r : FactRow) : FactRow :=
  if keyMatch u k r then ⟨r.user_id, r.fact_key, v⟩ else r

/-- `saveFact(userId, key, value)` (index.js 94–100):
`INSERT INTO memory ... ON CONFLICT(user_id, fact_key) DO UPDATE SET
fact_value = excluded.fact_value` — update the conflicting row if one
exists, else append a fresh row. -/
def saveFact (mem : Memory) (u k v : Str) : Memory :=
  if hasKey mem u k then mem.map (updRow u k v) else mem ++ [⟨u, k, v⟩]

/-- JavaScript-object facts mapping, in insertion order. -/
abbrev Facts := List (Str × Str)

/-- JavaScript property assignment `facts[key] = value`: update in place if
the key exists, else append. -/
def objSet (f : Facts) (k v : Str) : Facts :=
  if f.any (fun p => decide (p.1 = k)) then
    f.map (fun p => if p.1 = k then (k, v) else p)
  else f ++ [(k, v)]

/-- JavaScript property read `facts[key]` (`none` = `undefined`). -/
def objGet (f : Facts) (k : Str) : Option Str :=
  (f.find? (fun p => decide (p.1 = k))).map (fun p => p.2)

/-- The `rows.forEach(r => facts[r.fact_key] = r.fact_value)` loop. -/
def buildObj (rows : List FactRow) : Facts :=
  rows.foldl (fun acc r => objSet acc r.fact_key r.fact_value) []

/-- Successful-read result of `getFacts(userId)` (index.js 103–110):
all rows of the user, folded into a facts object. -/
def getFactsRows (mem : Memory) (u : Str) : Facts :=
  buildObj (mem.filter (userMatch u))

/-- `getFacts(userId, callback)`: on a read error (`readOk = false`) the
callback receives `{}`; otherwise the user's facts object. -/
def getFacts (mem : Memory) (readOk : Bool) (u : Str) : Facts :=
  if readOk then getFactsRows mem u else []

/-! ## Schema migration (`migrateMemoryTable`, index.js 20–73) -/

/-- Data effect of `INSERT OR IGNORE INTO memory ... SELECT ... FROM
memory_old`: copy rows in order, skipping any row whose `(user_id, fact_key)`
already exists in the target (arbitrary-survivor = first row wins). -/
def copyIgnore (acc : Memory) : Memory → Memory
  | [] => acc
  | r :: rs =>
    if hasKey acc r.user_id r.fact_key then copyIgnore acc rs
    else copyIgnore (acc ++ [r]) rs

/-- Data-level composition of the migration: rename the existing table, create
an empty constrained table, copy the old rows ignoring duplicate keys, drop the
renamed table. The surviving fact rows are `copyIgnore [] oldRows`. -/
def migrateData (oldRows : Memory) : Memory := copyIgnore [] oldRows

/-- Error injected (or not) at each fallible migration step. -/
structure MigrationEnv where
  pragmaErr : Option Str
  renameErr : Option Str
  createErr : Option Str
  copyErr : Option Str
  dropErr : Option Str

/-- Which migration steps ran, and whether the success message was logged. -/
structure MigrationTrace where
  renameAttempted : Bool
  createAttempted : Bool
  copyAttempted : Bool
  dropAttempted : Bool
  successLogged : Bool
deriving DecidableEq

/-- The benign-rename test: `renameErr.message.includes("no such table")`. -/
def benignRename (e : Str) : Bool := hasSub e (("no such table").data)

/-- Steps after a successful (or benignly failed) rename: a create error
aborts; the copy error is only logged; the drop then runs, logging the success
message exactly when it does not itself error. -/
def migrateAfterRename (env : MigrationEnv) : MigrationTrace :=
  match env.createErr with
  | some _ => ⟨true, true, false, false, false⟩
  | none => ⟨true, true, true, true, env.dropErr.isNone⟩

/-- Control flow of `migrateMemoryTable()` (index.js 20–73): the PRAGMA
callback aborts on error; a rename error aborts unless benign ("no such
table"); then the remaining steps run as in `migrateAfterRename`. -/
def migrateMemoryTable (env : MigrationEnv) : MigrationTrace :=
  match env.pragmaErr with
  | some _ => ⟨false, false, false, false, false⟩
  | none =>
    match env.renameErr with
    | some e =>
      if benignRename e then migrateAfterRename env
      else ⟨true, false, false, false, false⟩
    | none => migrateAfterRename env

/-! ## Prompt builder (`buildPrompt`, index.js 131–145) -/

def persona : Str :=
  ("You are a helpful chatbot named ").data ++ aq ++ ("Riyaz Assistant").data
    ++ aq ++ (". Keep replies concise.").data

/-- JSON string-character escaping as in `JSON.stringify`. -/
def jsonEscapeChar (c : Char) : Str :=
  if c = Char.ofNat 34 then [Char.ofNat 92, Char.ofNat 34]
  else if c = Char.ofNat 92 then [Char.ofNat 92, Char.ofNat 92]
  else if c = Char.ofNat 10 then [Char.ofNat 92, 'n']
  else if c = Char.ofNat 13 then [Char.ofNat 92, 'r']
  else if c = Char.ofNat 9 then [Char.ofNat 92, 't']
  else [c]

def jsonQuote (s : Str) : Str :=
  [Char.ofNat 34] ++ s.foldr (fun c acc => jsonEscapeChar c ++ acc) [] ++ [Char.ofNat 34]

/-- Comma-separated `"key":"value"` pairs of `JSON.stringify(facts)`. -/
def jsonPairs : Facts → Str
  | [] => []
  | [p] => jsonQuote p.1 ++ (":").data ++ jsonQuote p.2
  | p :: ps => jsonQuote p.1 ++ (":").data ++ jsonQuote p.2 ++ (",").data ++ jsonPairs ps

def jsonStringify (f : Facts) : Str :=
  [Char.ofNat 123] ++ jsonPairs f ++ [Char.ofNat 125]

/-- The facts clause of the prompt: serialized facts when non-empty, else the
fixed "no facts" sentence. -/
def factsText (facts : Facts) : Str :=
  if facts.isEmpty then ("No known facts about the user yet.").data
  else ("Known facts about the USER: ").data ++ jsonStringify facts

/-- The tone-guidance sentence, chosen by the tone value. -/
def toneHint (tone : Str) : Str :=
  if tone = ("empathetic").data then ("Respond with empathy, warm and short.").data
  else if tone = ("playful").data then ("Respond playful and light-hearted.").data
  else ("Respond neutrally and helpfully.").data

/-- `buildPrompt(userId, message, facts, tone)`: persona, facts clause, tone
guidance, user message and assistant marker joined by newlines. (`userId` is
accepted but unused, as in the source.) -/
def buildPrompt (userId message : Str) (facts : Facts) (tone : Str) : Str :=
  persona ++ [Char.ofNat 10] ++ factsText facts ++ [Char.ofNat 10] ++ toneHint tone
    ++ [Char.ofNat 10] ++ ("User: ").data ++ message ++ [Char.ofNat 10]
    ++ ("Assistant:").data

/-! ## Response generator (`callLLM`, index.js 150–170) -/

def empatheticReply : Str :=
  ("I").data ++ aq ++ ("m sorry you").data ++ aq
    ++ ("re feeling that way — I hear you. Tell me more, and I").data ++ aq
    ++ ("ll help.").data

def playfulReply : Str :=
  ("Haha nice! You").data ++ aq ++ ("re on fire — tell me more and I").data ++ aq
    ++ ("ll roast you gently 😉").data

def neutralReply : Str :=
  ("Thanks for telling me. I can help with that — what would you like to try next?").data

structure LLMOut where
  text : Str
  simulated : Bool
deriving DecidableEq

/-- Outcome of one `model.generateContent(prompt)` invocation of the external
provider: its returned text, or the error it throws. -/
inductive ProviderResult where
  | success (text : Str)
  | failure (msg : Str)

/-- `callLLM(prompt)`: with no credential (`apiKey` empty, so `genAI` is
null), pick a canned reply by testing the prompt for the substring
"empathetic", else "playful", else the neutral fallback, all flagged
simulated; with a credential, return the provider text un-simulated, or on a
provider error embed the error message in the reply and flag it simulated. -/
def callLLM (apiKey : Str) (provider : ProviderResult) (prompt : Str) : LLMOut :=
  if apiKey.isEmpty then
    if hasSub prompt (("empathetic").data) then ⟨empatheticReply, true⟩
    else if hasSub prompt (("playful").data) then ⟨playfulReply, true⟩
    else ⟨neutralReply, true⟩
  else
    match provider with
    | .success t => ⟨t, false⟩
    | .failure e => ⟨("Error calling Gemini: ").data ++ e, true⟩

/-! ## Chat route (`app.post('/chat')`, index.js 180–219) -/

/-- `[A-Za-z ]` character class of the name-capture pattern. -/
def isNameChar (c : Char) : Bool := c.isAlpha || c = ' '

/-- Greedy match of `[A-Za-z ]{1,40}` starting here (max 40 characters). -/
def takeNameChars : Nat → Str → Str
  | 0, _ => []
  | _, [] => []
  | n + 1, c :: cs => if isNameChar c then c :: takeNameChars n cs else []

/-- Case-insensitive literal-pattern strip: the pattern (given lower-case)
against the head of the input, returning the remainder on a match. -/
def stripCI : Str → Str → Option Str
  | [], rest => some rest
  | _ :: _, [] => none
  | p :: ps, c :: cs => if Char.toLower c = p then stripCI ps cs else none

/-- First match of `/my name is ([A-Za-z ]{1,40})/i`: scan left to right; at
the first position where the literal matches and at least one name character
follows, return the greedy capture. -/
def nameCapture : Str → Option Str
  | [] => none
  | c :: cs =>
    match stripCI (("my name is ").data) (c :: cs) with
    | some rest =>
      let cap := takeNameChars 40 rest
      if cap.isEmpty then nameCapture cs else some cap
    | none => nameCapture cs

/-- JavaScript `String.prototype.trim` on the captured name. -/
def trimStr (s : Str) : Str :=
  ((s.dropWhile Char.isWhitespace).reverse.dropWhile Char.isWhitespace).reverse

/-- The test `/what(('| i)s)? my name\??/i.test(message)`: the lower-cased
message contains "what my name", "what's my name" or "what is my name". -/
def isNameQuestion (m : Str) : Bool :=
  let lm := toLowerStr m
  hasSub lm (("what my name").data)
    || hasSub lm (("what").data ++ aq ++ ("s my name").data)
    || hasSub lm (("what is my name").data)

structure HistoryRow where
  user_id : Str
  message : Str
  reply : Str
  tone : Str
  time : Nat
deriving DecidableEq

/-- `saveHistory(userId, message, reply, tone)` appends one row stamped with
`Date.now()`. -/
def saveHistory (hist : List HistoryRow) (u m reply tone : Str) (now : Nat) :
    List HistoryRow :=
  hist ++ [⟨u, m, reply, tone, now⟩]

/-- `req.body`: each field `undefined` (`none`) or a string. -/
structure ChatBody where
  user_id : Option Str
  message : Option Str

/-- Observable outcome of one `/chat` request: HTTP response fields, the two
tables afterwards, and whether the handler read facts / invoked the response
generator. -/
structure ChatResult where
  status : Nat
  reply : Option Str
  tone : Option Str
  simulated : Option Bool
  errorMsg : Option Str
  mem : Memory
  hist : List HistoryRow
  factsRead : Bool
  generatorCalled : Bool
deriving DecidableEq

def nameKey : Str := ("name").data

/-- Memory after the opportunistic `my name is X` capture-and-save. -/
def memAfterCapture (mem : Memory) (u m : Str) : Memory :=
  match nameCapture m with
  | some cap => saveFact mem u nameKey (trimStr cap)
  | none => mem

/-- In-memory facts object after the capture (`facts.name = ...trim()`). -/
def factsAfterCapture (mem : Memory) (readOk : Bool) (u m : Str) : Facts :=
  match nameCapture m with
  | some cap => objSet (getFacts mem readOk u) nameKey (trimStr cap)
  | none => getFacts mem readOk u

def unknownNameReply : Str :=
  ("I don").data ++ aq ++ ("t know your name yet. What should I call you?").data

def knownNameReply (n : Str) : Str := ("Your name is ").data ++ n ++ (".").data

def missingFieldsError : Str := ("Provide user_id and message").data

/-- The `/chat` handler: reject missing/empty fields with 400 before touching
storage; otherwise load facts, classify tone, capture a name, short-circuit
name-recall questions (no generation, no history), else build the prompt, call
the generator and append a history row. `facts.name` is truthy only when
present and non-empty. -/
def chatHandler (apiKey : Str) (provider : ProviderResult) (now : Nat)
    (readOk : Bool) (mem : Memory) (hist : List HistoryRow) (body : ChatBody) :
    ChatResult :=
  match body.user_id, body.message with
  | some u, some m =>
    if u.isEmpty || m.isEmpty then
      ⟨400, none, none, none, some missingFieldsError, mem, hist, false, false⟩
    else
      let tone := detectTone m
      let mem2 := memAfterCapture mem u m
      let facts := factsAfterCapture mem readOk u m
      if isNameQuestion m then
        match objGet facts nameKey with
        | some n =>
          if n.isEmpty then
            ⟨200, some unknownNameReply, some tone, some true, none, mem2, hist,
              true, false⟩
          else
            ⟨200, some (knownNameReply n), some tone, some true, none, mem2, hist,
              true, false⟩
        | none =>
          ⟨200, some unknownNameReply, some tone, some true, none, mem2, hist,
            true, false⟩
      else
        let llm := callLLM apiKey provider (buildPrompt u m facts tone)
        ⟨200, some llm.text, some tone, some llm.simulated, none, mem2,
          saveHistory hist u m llm.text tone now, true, true⟩
  | _, _ => ⟨400, none, none, none, some missingFieldsError, mem, hist, false, false⟩

/-- The `/memory/:user_id` handler: always a 200 with the facts object. -/
def memoryHandler (mem : Memory) (readOk : Bool) (u : Str) : Nat × Facts :=
  (200, getFacts mem readOk u)

theorem startsWithB_nil_right (s : Str) : startsWithB s [] = true := by
  cases s <;> rfl

theorem startsWithB_append_self (p b : Str) : startsWithB (p ++ b) p = true := by
  induction p with
  | nil => exact startsWithB_nil_right b
  | cons x xs ih => simp [startsWithB, ih]

theorem startsWithB_through {p : Str} (c : Char) (hc : c ∉ p) :
    ∀ xs ys : Str, startsWithB (xs ++ c :: ys) p = true → startsWithB xs p = true := by
  induction p with
  | nil => intro xs ys _; exact startsWithB_nil_right xs
  | cons d ds ih =>
    intro xs ys h
    cases xs with
    | nil =>
      exfalso
      simp only [List.nil_append, startsWithB, Bool.and_eq_true, beq_iff_eq] at h
      exact hc (h.1 ▸ List.mem_cons_self d ds)
    | cons x xs2 =>
      simp only [List.cons_append, startsWithB, Bool.and_eq_true] at h ⊢
      refine ⟨h.1, ih (fun hm => hc (List.mem_cons_of_mem d hm)) xs2 ys h.2⟩

theorem hasSub_of_startsWithB {s p : Str} (h : startsWithB s p = true) :
    hasSub s p = true := by
  cases s with
  | nil => exact h
  | cons a s2 => simp [hasSub, h]

theorem hasSub_cons_of {a : Char} {s p : Str} (h : hasSub s p = true) :
    hasSub (a :: s) p = true := by
  simp [hasSub, h]

theorem hasSub_append_mid (a p b : Str) : hasSub (a ++ (p ++ b)) p = true := by
  induction a with
  | nil => exact hasSub_of_startsWithB (startsWithB_append_self p b)
  | cons x xs ih => exact hasSub_cons_of ih

theorem hasSub_split {p : Str} (c : Char) (hc : c ∉ p) :
    ∀ xs ys : Str, hasSub (xs ++ c :: ys) p = true →
      hasSub xs p = true ∨ hasSub ys p = true := by
  intro xs
  induction xs with
  | nil =>
    intro ys h
    simp only [List.nil_append, hasSub, Bool.or_eq_true] at h
    rcases h with h | h
    · cases p with
      | nil => exact Or.inl rfl
      | cons d ds =>
        exfalso
        simp only [startsWithB, Bool.and_eq_true, beq_iff_eq] at h
        exact hc (h.1 ▸ List.mem_cons_self d ds)
    · exact Or.inr h
  | cons x xs2 ih =>
    intro ys h
    simp only [List.cons_append, hasSub, Bool.or_eq_true] at h
    rcases h with h | h
    · exact Or.inl (hasSub_of_startsWithB (startsWithB_through c hc (x :: xs2) ys h))
    · rcases ih ys h with h2 | h2
      · exact Or.inl (hasSub_cons_of h2)
      · exact Or.inr h2

theorem hasSub_sep_false {p : Str} {c : Char} {xs ys : Str} (hc : c ∉ p)
    (hx : hasSub xs p = false) (hy : hasSub ys p = false) :
    hasSub (xs ++ c :: ys) p = false := by
  cases h : hasSub (xs ++ c :: ys) p with
  | false => rfl
  | true =>
    rcases hasSub_split c hc xs ys h with h2 | h2
    · rw [hx] at h2; exact absurd h2 (by simp)
    · rw [hy] at h2; exact absurd h2 (by simp)

/-- C2: the tone classifier is a pure function of the message text,
case-insensitive: any empathetic keyword occurring as a substring of the
lower-cased message yields "empathetic"; otherwise any playful keyword yields
"playful"; otherwise "neutral" (empathetic checked first, first match wins). -/
theorem c2_detectTone_keywords (m : Str) :
    ((∃ k ∈ empatheticKeywords, hasSub (toLowerStr m) k = true) →
      detectTone m = ("empathetic").data) ∧
    ((∀ k ∈ empatheticKeywords, hasSub (toLowerStr m) k = false) →
      (∃ k ∈ playfulKeywords, hasSub (toLowerStr m) k = true) →
      detectTone m = ("playful").data) ∧
    ((∀ k ∈ empatheticKeywords, hasSub (toLowerStr m) k = false) →
      (∀ k ∈ playfulKeywords, hasSub (toLowerStr m) k = false) →
      detectTone m = ("neutral").data) := by
  refine ⟨?_, ?_, ?_⟩
  · intro h
    have : empatheticKeywords.any (fun k => hasSub (toLowerStr m) k) = true :=
      List.any_eq_true.mpr h
    simp [detectTone, this]
  · intro hne hp
    have h1 : empatheticKeywords.any (fun k => hasSub (toLowerStr m) k) = false := by
      simp only [List.any_eq_false]
      intro k hk
      simp [hne k hk]
    have h2 : playfulKeywords.any (fun k => hasSub (toLowerStr m) k) = true :=
      List.any_eq_true.mpr hp
    simp [detectTone, h1, h2]
  · intro hne hnp
    have h1 : empatheticKeywords.any (fun k => hasSub (toLowerStr m) k) = false := by
      simp only [List.any_eq_false]
      intro k hk
      simp [hne k hk]
    have h2 : playfulKeywords.any (fun k => hasSub (toLowerStr m) k) = false := by
      simp only [List.any_eq_false]
      intro k hk
      simp [hnp k hk]
    simp [detectTone, h1, h2]

/-- C2 witness: "I feel SAD" classifies as empathetic via the keyword "sad". -/
theorem c2_detectTone_keywords_witness :
    detectTone (("I feel SAD").data) = ("empathetic").data :=
  (c2_detectTone_keywords (("I feel SAD").data)).1
    ⟨("sad").data, by decide, by decide⟩

/-! ## Migration control flow: claim C5 -/

/-- C5 counterexample: in a run where only the row-copy step fails, the drop
of the renamed old table is still executed, contradicting the claim that any
non-benign failure aborts all remaining migration steps. -/
theorem c5_copy_failure_still_drops :
    (migrateMemoryTable ⟨none, none, none, some (("disk error").data), none⟩).dropAttempted
      = true := by decide

/-- C5 (amended): a benign rename failure is a no-op and migration proceeds;
a PRAGMA-callback error prevents every later step; a non-benign rename error
and a create error abort the remaining steps; but a copy error is only logged
— the drop still runs, and the success message is logged exactly when the
drop itself does not error. -/
theorem c5_migration_control_flow (env : MigrationEnv) :
    let t := migrateMemoryTable env
    t.renameAttempted = env.pragmaErr.isNone
    ∧ t.createAttempted = (env.pragmaErr.isNone
        && (match env.renameErr with | none => true | some e => benignRename e))
    ∧ t.copyAttempted = (t.createAttempted && env.createErr.isNone)
    ∧ t.dropAttempted = t.copyAttempted
    ∧ t.successLogged = (t.dropAttempted && env.dropErr.isNone) := by
  rcases env with ⟨p, r, c, cp, d⟩
  cases p with
  | some e => simp [migrateMemoryTable]
  | none =>
    cases r with
    | none => cases c <;> simp [migrateMemoryTable, migrateAfterRename]
    | some e =>
      cases hb : benignRename e with
      | true => cases c <;> simp [migrateMemoryTable, migrateAfterRename, hb]
      | false => simp [migrateMemoryTable, hb]

/-! ## Chat route input validation: claim C7 -/

/-- C7: a `/chat` request with `user_id` or `message` missing is answered with
a 400 error body and has no side effects: both tables are unchanged, no facts
are read, and the response generator is not invoked. -/
theorem c7_missing_fields (apiKey : Str) (provider : ProviderResult) (now : Nat)
    (readOk : Bool) (mem : Memory) (hist : List HistoryRow) (body : ChatBody)
    (h : body.user_id = none ∨ body.message = none) :
    let r := chatHandler apiKey provider now readOk mem hist body
    r.status = 400 ∧ r.errorMsg = some missingFieldsError ∧ r.reply = none
    ∧ r.mem = mem ∧ r.hist = hist ∧ r.factsRead = false
    ∧ r.generatorCalled = false := by
  rcases body with ⟨bu, bm⟩
  rcases h with h | h
  · simp only at h; subst h; cases bm <;> simp [chatHandler]
  · simp only at h; subst h; cases bu <;> simp [chatHandler]

/-- C7 witness: a request with a user id but no message gets a 400 and leaves
the empty tables empty. -/
theorem c7_missing_fields_witness :
    let r := chatHandler [] (.success []) 0 true [] [] ⟨some (("u1").data), none⟩
    r.status = 400 ∧ r.errorMsg = some missingFieldsError ∧ r.reply = none
    ∧ r.mem = [] ∧ r.hist = [] ∧ r.factsRead = false
    ∧ r.generatorCalled = false :=
  c7_missing_fields [] (.success []) 0 true [] [] ⟨some (("u1").data), none⟩
    (Or.inr rfl)

/-! ## Facts reads never fail: claim C8 -/

/-- C8: `getFacts` surfaces no error — a storage read failure yields the empty
mapping, indistinguishable from a user with no stored facts, and
`GET /memory/:user_id` for a user with no rows answers 200 with `{}` whether
or not the read succeeds. -/
theorem c8_getFacts_never_errors (mem : Memory) (readOk : Bool) (u : Str)
    (h : ∀ r ∈ mem, ¬ r.user_id = u) :
    getFacts mem false u = [] ∧ memoryHandler mem readOk u = (200, []) := by
  have hrows : getFactsRows mem u = [] := by
    have hf : mem.filter (userMatch u) = [] := by
      rw [List.filter_eq_nil_iff]
      intro r hr
      simp [userMatch, h r hr]
    simp [getFactsRows, hf, buildObj]
  constructor
  · rfl
  · cases readOk <;> simp [memoryHandler, getFacts, hrows]

/-- C8 witness: a store holding only another user's fact yields `{}` for user
"u9", both on a failed and on a successful read. -/
theorem c8_getFacts_never_errors_witness :
    getFacts [⟨("u1").data, ("name").data, ("Alex").data⟩] false (("u9").data) = []
    ∧ memoryHandler [⟨("u1").data, ("name").data, ("Alex").data⟩] true (("u9").data)
      = (200, []) :=
  c8_getFacts_never_errors [⟨("u1").data, ("name").data, ("Alex").data⟩] true
    (("u9").data) (by decide)

/-! ## Provider errors degrade to a simulated 200 reply: claim C9 -/

/-- C9: in live mode (credential configured), a provider invocation error is
caught inside `callLLM`: the reply text embeds the error message, the
simulated flag is set, nothing is re-raised, and the `/chat` response is still
a 200 carrying that degraded reply. -/
theorem c9_provider_error_degraded (apiKey e : Str) (now : Nat) (readOk : Bool)
    (mem : Memory) (hist : List HistoryRow) (u m : Str)
    (hk : apiKey.isEmpty = false) (hu : u.isEmpty = false)
    (hm : m.isEmpty = false) (hq : isNameQuestion m = false) :
    (∀ prompt, callLLM apiKey (.failure e) prompt
      = ⟨("Error calling Gemini: ").data ++ e, true⟩)
    ∧ (let r := chatHandler apiKey (.failure e) now readOk mem hist ⟨some u, some m⟩
       r.status = 200 ∧ r.reply = some (("Error calling Gemini: ").data ++ e)
       ∧ r.simulated = some true) := by
  have hc : ∀ prompt, callLLM apiKey (.failure e) prompt
      = ⟨("Error calling Gemini: ").data ++ e, true⟩ := by
    intro prompt
    simp [callLLM, hk]
  refine ⟨hc, ?_⟩
  simp [chatHandler, hu, hm, hq, hc]

/-- C9 witness: with credential "k", provider failure "boom" on message "hi"
produces a 200 whose reply embeds the error text, flagged simulated. -/
theorem c9_provider_error_degraded_witness :
    (∀ prompt, callLLM (("k").data) (.failure (("boom").data)) prompt
      = ⟨("Error calling Gemini: ").data ++ ("boom").data, true⟩)
    ∧ (let r := chatHandler (("k").data) (.failure (("boom").data)) 0 true [] []
         ⟨some (("u1").data), some (("hi").data)⟩
       r.status = 200
       ∧ r.reply = some (("Error calling Gemini: ").data ++ ("boom").data)
       ∧ r.simulated = some true) :=
  c9_provider_error_degraded (("k").data) (("boom").data) 0 true [] []
    (("u1").data) (("hi").data) (by decide) (by decide) (by decide) (by decide)

/-! ## Name-recall replies are always simulated: claim C10 -/

/-- C10: every response from the name-recall short-circuit carries
`simulated: true`, whatever the credential configuration — even in live mode a
"what is my name" reply is flagged simulated. -/
theorem c10_name_recall_always_simulated (apiKey : Str) (provider : ProviderResult)
    (now : Nat) (readOk : Bool) (mem : Memory) (hist : List HistoryRow) (u m : Str)
    (hu : u.isEmpty = false) (hm : m.isEmpty = false)
    (hq : isNameQuestion m = true) :
    (chatHandler apiKey provider now readOk mem hist ⟨some u, some m⟩).simulated
      = some true := by
  cases hobj : objGet (factsAfterCapture mem readOk u m) nameKey with
  | none => simp [chatHandler, hu, hm, hq, hobj]
  | some n => cases hn : n.isEmpty <;> simp [chatHandler, hu, hm, hq, hobj, hn]

/-- C10 witness: in live mode (credential "k"), asking "what is my name?"
yields a simulated-flagged reply. -/
theorem c10_name_recall_always_simulated_witness :
    (chatHandler (("k").data) (.success (("live text").data)) 0 true
      [⟨("u1").data, ("name").data, ("Alex").data⟩] []
      ⟨some (("u1").data), some (("what is my name?").data)⟩).simulated
      = some true :=
  c10_name_recall_always_simulated (("k").data) (.success (("live text").data)) 0
    true [⟨("u1").data, ("name").data, ("Alex").data⟩] [] (("u1").data)
    (("what is my name?").data) (by decide) (by decide) (by decide)

/-! ## Fact-store counting lemmas -/

theorem countKey_append (l1 l2 : Memory) (u k : Str) :
    countKey (l1 ++ l2) u k = countKey l1 u k + countKey l2 u k := by
  simp [countKey, List.filter_append]

theorem hasKey_eq_false_iff (mem : Memory) (u k : Str) :
    hasKey mem u k = false ↔ countKey mem u k = 0 := by
  rw [countKey, List.length_eq_zero, List.filter_eq_nil_iff, hasKey,
    List.any_eq_false]

theorem countKey_cons_self (r : FactRow) (rest : Memory) :
    countKey (r :: rest) r.user_id r.fact_key
      = countKey rest r.user_id r.fact_key + 1 := by
  have h : keyMatch r.user_id r.fact_key r = true := by simp [keyMatch]
  simp [countKey, List.filter_cons, h]

theorem atMostOne_nil : atMostOne [] := by
  intro u k
  simp [countKey]

theorem atMostOne_singleton (r : FactRow) : atMostOne [r] := by
  intro u k
  simpa [countKey] using List.length_filter_le (keyMatch u k) [r]

/-! ## Migration idempotence: claim C6 -/

theorem copyIgnore_of_atMostOne :
    ∀ (rs acc : Memory), atMostOne (acc ++ rs) → copyIgnore acc rs = acc ++ rs := by
  intro rs
  induction rs with
  | nil => intro acc _; simp [copyIgnore]
  | cons r rest ih =>
    intro acc h
    have hcount : countKey acc r.user_id r.fact_key = 0 := by
      have h1 := h r.user_id r.fact_key
      rw [countKey_append] at h1
      have h2 := countKey_cons_self r rest
      omega
    have hk : hasKey acc r.user_id r.fact_key = false :=
      (hasKey_eq_false_iff acc r.user_id r.fact_key).mpr hcount
    have hsh : (acc ++ [r]) ++ rest = acc ++ r :: rest := by simp
    rw [copyIgnore, hk]
    simp only [Bool.false_eq_true, if_false]
    rw [ih (acc ++ [r]) (by rw [hsh]; exact h), hsh]

/-- C6: re-running the migration's data step on an already-migrated store —
one whose rows already satisfy the at-most-one-row-per-`(user_id, fact_key)`
constraint — reproduces exactly the same rows: rename, constrained recreate,
copy-ignoring-duplicates and drop compose to the identity. -/
theorem c6_migration_idempotent (rows : Memory) (h : atMostOne rows) :
    migrateData rows = rows := by
  have := copyIgnore_of_atMostOne rows [] (by simpa using h)
  simpa [migrateData] using this

/-- C6 witness: migrating a one-row constrained table reproduces it. -/
theorem c6_migration_idempotent_witness :
    migrateData [⟨("u1").data, ("name").data, ("Alex").data⟩]
      = [⟨("u1").data, ("name").data, ("Alex").data⟩] :=
  c6_migration_idempotent [⟨("u1").data, ("name").data, ("Alex").data⟩]
    (atMostOne_singleton ⟨("u1").data, ("name").data, ("Alex").data⟩)

/-! ## saveFact lemmas -/

theorem keyMatch_updRow (u2 k2 u k v : Str) (r : FactRow) :
    keyMatch u2 k2 (updRow u k v r) = keyMatch u2 k2 r := by
  rw [updRow]
  by_cases h : keyMatch u k r = true
  · rw [if_pos h]; simp [keyMatch]
  · rw [if_neg h]

theorem countKey_map_upd (mem : Memory) (u k v u2 k2 : Str) :
    countKey (mem.map (updRow u k v)) u2 k2 = countKey mem u2 k2 := by
  induction mem with
  | nil => rfl
  | cons r rest ih =>
    simp only [countKey, List.map_cons, List.filter_cons, keyMatch_updRow] at ih ⊢
    by_cases h : keyMatch u2 k2 r = true <;> simp [h, ih]

theorem filter_map_upd_self (mem : Memory) (u k v : Str) :
    (mem.map (updRow u k v)).filter (keyMatch u k)
      = List.replicate (countKey mem u k) ⟨u, k, v⟩ := by
  induction mem with
  | nil => rfl
  | cons r rest ih =>
    by_cases h : keyMatch u k r = true
    · have hfields : r.user_id = u ∧ r.fact_key = k := by
        simpa [keyMatch] using h
      have hupd : updRow u k v r = ⟨u, k, v⟩ := by
        simp [updRow, h, hfields.1, hfields.2]
      have hc : countKey (r :: rest) u k = countKey rest u k + 1 := by
        simp [countKey, List.filter_cons, h]
      simp [List.filter_cons, hupd, keyMatch, hc, List.replicate_succ, ih]
    · have hc : countKey (r :: rest) u k = countKey rest u k := by
        simp [countKey, List.filter_cons, h]
      have hupd : keyMatch u k (updRow u k v r) = false := by
        rw [keyMatch_updRow]
        exact Bool.not_eq_true _ ▸ h
      simp [List.filter_cons, hupd, hc, ih]

theorem countKey_saveFact_self (mem : Memory) (u k v : Str) :
    countKey (saveFact mem u k v) u k
      = if countKey mem u k = 0 then 1 else countKey mem u k := by
  by_cases hk : hasKey mem u k = true
  · have hnz : ¬ countKey mem u k = 0 := by
      intro h0
      rw [← hasKey_eq_false_iff] at h0
      rw [hk] at h0
      exact Bool.true_eq_false.mp h0
    rw [saveFact, hk]
    simp [countKey_map_upd, hnz]
  · have hk2 : hasKey mem u k = false := Bool.not_eq_true _ ▸ hk
    have h0 : countKey mem u k = 0 := (hasKey_eq_false_iff mem u k).mp hk2
    rw [saveFact, hk2]
    simp only [Bool.false_eq_true, if_false]
    rw [countKey_append, h0]
    have hone : countKey [(⟨u, k, v⟩ : FactRow)] u k = 1 := by
      simp [countKey, List.filter_cons, keyMatch]
    rw [hone]
    simp

theorem atMostOne_saveFact (mem : Memory) (u k v : Str) (h : atMostOne mem) :
    atMostOne (saveFact mem u k v) := by
  intro u2 k2
  by_cases hk : hasKey mem u k = true
  · rw [saveFact, hk]
    simp only [if_true]
    rw [countKey_map_upd]
    exact h u2 k2
  · have hk2 : hasKey mem u k = false := Bool.not_eq_true _ ▸ hk
    have h0 : countKey mem u k = 0 := (hasKey_eq_false_iff mem u k).mp hk2
    rw [saveFact, hk2]
    simp only [Bool.false_eq_true, if_false]
    rw [countKey_append]
    by_cases hmatch : keyMatch u2 k2 (⟨u, k, v⟩ : FactRow) = true
    · have hfields : u = u2 ∧ k = k2 := by simpa [keyMatch] using hmatch
      have hone : countKey [(⟨u, k, v⟩ : FactRow)] u2 k2 = 1 := by
        simp [countKey, List.filter_cons, hmatch]
      rw [hone, ← hfields.1, ← hfields.2, h0]
    · have hzero : countKey [(⟨u, k, v⟩ : FactRow)] u2 k2 = 0 := by
        simp only [Bool.not_eq_true] at hmatch
        simp [countKey, List.filter_cons, hmatch]
      rw [hzero]
      simpa using h u2 k2

theorem filter_double_save (mem : Memory) (u k v1 v2 : Str) (h : atMostOne mem) :
    (saveFact (saveFact mem u k v1) u k v2).filter (keyMatch u k)
      = [⟨u, k, v2⟩] := by
  have hc1 : countKey (saveFact mem u k v1) u k = 1 := by
    rw [countKey_saveFact_self]
    by_cases h0 : countKey mem u k = 0
    · simp [h0]
    · have := h u k
      have : countKey mem u k = 1 := by omega
      simp [this]
  have hk1 : hasKey (saveFact mem u k v1) u k = true := by
    cases hcase : hasKey (saveFact mem u k v1) u k with
    | true => rfl
    | false =>
      have := (hasKey_eq_false_iff _ u k).mp hcase
      rw [hc1] at this
      exact absurd this one_ne_zero
  rw [saveFact, hk1]
  simp only [if_true]
  rw [filter_map_upd_self, hc1]
  rfl

/-! ## Facts-object lemmas -/

theorem objGet_objSet_self (f : Facts) (k v : Str) :
    objGet (objSet f k v) k = some v := by
  rw [objSet]
  by_cases h : f.any (fun p => decide (p.1 = k)) = true
  · rw [if_pos h, objGet, List.find?_map]
    have hpred : ((fun p : Str × Str => decide (p.1 = k)) ∘
        (fun p : Str × Str => if p.1 = k then (k, v) else p))
        = fun p : Str × Str => decide (p.1 = k) := by
      funext p
      by_cases hp : p.1 = k <;> simp [hp]
    rw [hpred]
    have hsome : (f.find? (fun p => decide (p.1 = k))).isSome = true := by
      rw [List.find?_isSome]
      simpa using List.any_eq_true.mp h
    rcases Option.isSome_iff_exists.mp hsome with ⟨p0, hp0⟩
    have hp0k : p0.1 = k := by simpa using List.find?_some hp0
    rw [hp0]
    simp [hp0k]
  · rw [if_neg h, objGet, List.find?_append]
    have hnone : f.find? (fun p => decide (p.1 = k)) = none := by
      rw [List.find?_eq_none]
      intro x hx
      have h2 : f.any (fun p => decide (p.1 = k)) = false := Bool.not_eq_true _ ▸ h
      simpa using List.any_eq_false.mp h2 x hx
    rw [hnone]
    simp [List.find?]

theorem objGet_objSet_other (f : Facts) (k v k2 : Str) (hne : k2 ≠ k) :
    objGet (objSet f k v) k2 = objGet f k2 := by
  rw [objSet]
  by_cases h : f.any (fun p => decide (p.1 = k)) = true
  · rw [if_pos h, objGet, objGet, List.find?_map]
    have hpred : ((fun p : Str × Str => decide (p.1 = k2)) ∘
        (fun p : Str × Str => if p.1 = k then (k, v) else p))
        = fun p : Str × Str => decide (p.1 = k2) := by
      funext p
      by_cases hp : p.1 = k <;> simp [hp]
    rw [hpred]
    cases hf : f.find? (fun p : Str × Str => decide (p.1 = k2)) with
    | none => simp
    | some p0 =>
      have hp0 : p0.1 = k2 := by simpa using List.find?_some hf
      have hnk : ¬ p0.1 = k := by rw [hp0]; exact hne
      simp [hnk]
  · rw [if_neg h, objGet, objGet, List.find?_append]
    have hone : List.find? (fun p : Str × Str => decide (p.1 = k2)) [(k, v)]
        = none := by
      rw [List.find?_eq_none]
      intro x hx
      have hx2 : x = (k, v) := List.mem_singleton.mp hx
      subst hx2
      simpa using Ne.symm hne
    rw [hone]
    simp

theorem buildObj_aux_none (k : Str) :
    ∀ (rs : List FactRow) (acc : Facts),
      (∀ r ∈ rs, r.fact_key ≠ k) →
      objGet (rs.foldl (fun a r => objSet a r.fact_key r.fact_value) acc) k
        = objGet acc k := by
  intro rs
  induction rs with
  | nil => intro acc _; rfl
  | cons r rest ih =>
    intro acc h
    rw [List.foldl_cons, ih _ (fun q hq => h q (List.mem_cons_of_mem r hq)),
      objGet_objSet_other _ _ _ _ (Ne.symm (h r (List.mem_cons_self r rest)))]

theorem buildObj_aux_single (k u v : Str) :
    ∀ (rs : List FactRow) (acc : Facts),
      rs.filter (fun r => decide (r.fact_key = k)) = [⟨u, k, v⟩] →
      objGet (rs.foldl (fun a r => objSet a r.fact_key r.fact_value) acc) k
        = some v := by
  intro rs
  induction rs with
  | nil => intro acc h; exact absurd h (by simp)
  | cons r rest ih =>
    intro acc h
    by_cases hr : r.fact_key = k
    · rw [List.filter_cons] at h
      rw [if_pos (by simpa using hr)] at h
      injection h with h1 h2
      have hnone : ∀ q ∈ rest, q.fact_key ≠ k := by
        intro q hq
        have := List.filter_eq_nil_iff.mp h2 q hq
        simpa using this
      rw [List.foldl_cons, buildObj_aux_none k rest _ hnone, h1]
      exact objGet_objSet_self acc k v
    · rw [List.filter_cons] at h
      rw [if_neg (by simpa using hr)] at h
      rw [List.foldl_cons]
      exact ih _ h

/-! ## Last-write-wins invariant: claim C3 -/

/-- C3: starting from any store satisfying the migrated invariant, writing
`(u, k) := v1` then `(u, k) := v2` preserves the invariant at every step and
leaves exactly one row for `(u, k)`, whose value is `v2`; `getFacts` then maps
`k` to `v2`. -/
theorem c3_saveFact_last_write_wins (mem : Memory) (u k v1 v2 : Str)
    (h : atMostOne mem) :
    atMostOne (saveFact mem u k v1)
    ∧ countKey (saveFact (saveFact mem u k v1) u k v2) u k = 1
    ∧ (saveFact (saveFact mem u k v1) u k v2).filter (keyMatch u k)
        = [⟨u, k, v2⟩]
    ∧ objGet (getFactsRows (saveFact (saveFact mem u k v1) u k v2) u) k
        = some v2
    ∧ atMostOne (saveFact (saveFact mem u k v1) u k v2) := by
  have h1 : atMostOne (saveFact mem u k v1) := atMostOne_saveFact mem u k v1 h
  have h2 : atMostOne (saveFact (saveFact mem u k v1) u k v2) :=
    atMostOne_saveFact _ u k v2 h1
  have hfil := filter_double_save mem u k v1 v2 h
  have hcnt : countKey (saveFact (saveFact mem u k v1) u k v2) u k = 1 := by
    rw [countKey, hfil]
    rfl
  refine ⟨h1, hcnt, hfil, ?_, h2⟩
  rw [getFactsRows, buildObj]
  apply buildObj_aux_single k u v2
  rw [List.filter_filter]
  have hfun : (fun r : FactRow => decide (r.fact_key = k) && userMatch u r)
      = keyMatch u k := by
    funext r
    simp [keyMatch, userMatch, Bool.and_comm]
  rw [hfun, hfil]

/-- C3 witness: on the empty store, saving name "Alex" then "Sam" for user
"u1" leaves one row with value "Sam", which `getFacts` reports. -/
theorem c3_saveFact_last_write_wins_witness :
    atMostOne (saveFact [] (("u1").data) (("name").data) (("Alex").data))
    ∧ countKey (saveFact (saveFact [] (("u1").data) (("name").data)
        (("Alex").data)) (("u1").data) (("name").data) (("Sam").data))
        (("u1").data) (("name").data) = 1
    ∧ (saveFact (saveFact [] (("u1").data) (("name").data) (("Alex").data))
        (("u1").data) (("name").data) (("Sam").data)).filter
        (keyMatch (("u1").data) (("name").data))
        = [⟨("u1").data, ("name").data, ("Sam").data⟩]
    ∧ objGet (getFactsRows (saveFact (saveFact [] (("u1").data) (("name").data)
        (("Alex").data)) (("u1").data) (("name").data) (("Sam").data))
        (("u1").data)) (("name").data) = some (("Sam").data)
    ∧ atMostOne (saveFact (saveFact [] (("u1").data) (("name").data)
        (("Alex").data)) (("u1").data) (("name").data) (("Sam").data)) :=
  c3_saveFact_last_write_wins [] (("u1").data) (("name").data) (("Alex").data)
    (("Sam").data) atMostOne_nil

/-! ## Name-recall short-circuit: claim C4 -/

/-- C4: when the message matches the "what is my name" pattern, the `/chat`
handler short-circuits: it answers 200 with the stored name when a non-empty
name fact is known (including one captured in the same request) and an
admission of not knowing otherwise, the response generator is not invoked,
and the history table is left unchanged. -/
theorem c4_name_question_short_circuit (apiKey : Str) (provider : ProviderResult)
    (now : Nat) (readOk : Bool) (mem : Memory) (hist : List HistoryRow)
    (u m : Str) (hu : u.isEmpty = false) (hm : m.isEmpty = false)
    (hq : isNameQuestion m = true) :
    let r := chatHandler apiKey provider now readOk mem hist ⟨some u, some m⟩
    r.hist = hist ∧ r.generatorCalled = false ∧ r.status = 200
    ∧ r.reply = some (match objGet (factsAfterCapture mem readOk u m) nameKey with
        | some n => if n.isEmpty then unknownNameReply else knownNameReply n
        | none => unknownNameReply) := by
  cases hobj : objGet (factsAfterCapture mem readOk u m) nameKey with
  | none => simp [chatHandler, hu, hm, hq, hobj]
  | some n => cases hn : n.isEmpty <;> simp [chatHandler, hu, hm, hq, hobj, hn]

/-- C4 witness: in live mode with a stored name "Alex", asking
"what is my name?" leaves the (empty) history unchanged, skips the generator,
and replies from the stored fact. -/
theorem c4_name_question_short_circuit_witness :
    let r := chatHandler (("k").data) (.success (("live").data)) 5 true
      [⟨("u1").data, ("name").data, ("Alex").data⟩] []
      ⟨some (("u1").data), some (("what is my name?").data)⟩
    r.hist = [] ∧ r.generatorCalled = false ∧ r.status = 200
    ∧ r.reply = some (match objGet (factsAfterCapture
        [⟨("u1").data, ("name").data, ("Alex").data⟩] true (("u1").data)
        (("what is my name?").data)) nameKey with
        | some n => if n.isEmpty then unknownNameReply else knownNameReply n
        | none => unknownNameReply) :=
  c4_name_question_short_circuit (("k").data) (.success (("live").data)) 5 true
    [⟨("u1").data, ("name").data, ("Alex").data⟩] [] (("u1").data)
    (("what is my name?").data) (by decide) (by decide) (by decide)

/-! ## Offline canned replies: claim C1 -/

theorem hasSub_append_right {p : Str} (xs : Str) {ys : Str}
    (h : hasSub ys p = true) : hasSub (xs ++ ys) p = true := by
  induction xs with
  | nil => simpa using h
  | cons a as ih => exact hasSub_cons_of ih

/-- No needle free of newline and space can occur in the assembled prompt
unless it occurs in one of its six newline/space-separated segments. -/
theorem hasSub_buildPrompt_false (u m : Str) (facts : Facts) (tone : Str)
    (needle : Str) (h10 : Char.ofNat 10 ∉ needle) (hsp : (' ' : Char) ∉ needle)
    (hp : hasSub persona needle = false)
    (hf : hasSub (factsText facts) needle = false)
    (ht : hasSub (toneHint tone) needle = false)
    (hu2 : hasSub (("User:").data) needle = false)
    (hm : hasSub m needle = false)
    (ha : hasSub (("Assistant:").data) needle = false) :
    hasSub (buildPrompt u m facts tone) needle = false := by
  have hU : ("User: ").data = ("User:").data ++ [' '] := by decide
  have hform : buildPrompt u m facts tone
      = persona ++ Char.ofNat 10 :: (factsText facts ++ Char.ofNat 10 ::
        (toneHint tone ++ Char.ofNat 10 :: (("User:").data ++ ' ' ::
        (m ++ Char.ofNat 10 :: ("Assistant:").data)))) := by
    simp [buildPrompt, hU, List.append_assoc]
  rw [hform]
  exact hasSub_sep_false h10 hp (hasSub_sep_false h10 hf (hasSub_sep_false h10 ht
    (hasSub_sep_false hsp hu2 (hasSub_sep_false h10 hm ha))))

/-- C1 counterexample: the message "i am sad" is classified empathetic, yet in
offline mode the canned reply is the neutral fallback, not the empathetic
template — the empathetic guidance sentence says "empathy", so the prompt
never contains the substring "empathetic" that the reply selector tests. -/
theorem c1_empathetic_tone_gets_neutral_reply :
    detectTone (("i am sad").data) = ("empathetic").data
    ∧ callLLM [] (.success []) (buildPrompt (("u1").data) (("i am sad").data) []
        (detectTone (("i am sad").data))) = ⟨neutralReply, true⟩
    ∧ neutralReply ≠ empatheticReply := by
  refine ⟨by decide, by decide, by decide⟩

/-- C1 (amended): in offline mode, when neither the message nor the serialized
facts clause contains the literal substrings "empathetic" or "playful", the
canned reply is the playful template exactly for playful tone and the neutral
fallback for every other tone — in particular an empathetic-tone message
receives the neutral fallback, because the empathetic guidance sentence
contains "empathy", not "empathetic". All such replies are flagged simulated.
(Instantiating `tone := detectTone m` gives the handler's behaviour.) -/
theorem c1_offline_reply_by_tone (u m : Str) (facts : Facts) (tone : Str)
    (provider : ProviderResult)
    (hm1 : hasSub m (("empathetic").data) = false)
    (hm2 : hasSub m (("playful").data) = false)
    (hf1 : hasSub (factsText facts) (("empathetic").data) = false)
    (hf2 : hasSub (factsText facts) (("playful").data) = false) :
    callLLM [] provider (buildPrompt u m facts tone)
      = ⟨if tone = ("playful").data then playfulReply else neutralReply, true⟩ := by
  have hTe : hasSub (toneHint tone) (("empathetic").data) = false := by
    rw [toneHint]
    split_ifs <;> decide
  have hPe : hasSub (buildPrompt u m facts tone) (("empathetic").data) = false :=
    hasSub_buildPrompt_false u m facts tone _ (by decide) (by decide) (by decide)
      hf1 hTe (by decide) hm1 (by decide)
  by_cases ht : tone = ("playful").data
  · subst ht
    have hU : ("User: ").data = ("User:").data ++ [' '] := by decide
    have hform : buildPrompt u m facts (("playful").data)
        = persona ++ Char.ofNat 10 :: (factsText facts ++ Char.ofNat 10 ::
          (toneHint (("playful").data) ++ Char.ofNat 10 :: (("User:").data ++ ' ' ::
          (m ++ Char.ofNat 10 :: ("Assistant:").data)))) := by
      simp [buildPrompt, hU, List.append_assoc]
    have hTH : toneHint (("playful").data)
        = ("Respond ").data ++ (("playful").data ++ (" and light-hearted.").data) := by
      decide
    have hPp : hasSub (buildPrompt u m facts (("playful").data))
        (("playful").data) = true := by
      rw [hform, hTH]
      apply hasSub_append_right persona
      apply hasSub_cons_of
      apply hasSub_append_right (factsText facts)
      apply hasSub_cons_of
      rw [List.append_assoc, List.append_assoc]
      exact hasSub_append_mid (("Respond ").data) (("playful").data) _
    simp [callLLM, hPe, hPp]
  · have hTp : hasSub (toneHint tone) (("playful").data) = false := by
      rw [toneHint]
      split_ifs <;> decide
    have hPp : hasSub (buildPrompt u m facts tone) (("playful").data) = false :=
      hasSub_buildPrompt_false u m facts tone _ (by decide) (by decide) (by decide)
      hf2 hTp (by decide) hm2 (by decide)
    simp [callLLM, hPe, hPp, ht]

/-- C1 witness: for the empathetic-tone message "i am sad" with no facts, the
amended claim instantiates to the neutral fallback reply. -/
theorem c1_offline_reply_by_tone_witness :
    callLLM [] (.success []) (buildPrompt (("u1").data) (("i am sad").data) []
      (("empathetic").data)) = ⟨neutralReply, true⟩ := by
  have h := c1_offline_reply_by_tone (("u1").data) (("i am sad").data) []
    (("empathetic").data) (.success []) (by decide) (by decide) (by decide)
    (by decide)
  rw [if_neg (by decide)] at h
  exact h
